import Mathlib

/-!
Verification of the conversation synchronization and decrypt-authorization
engine of the dna-messenger GUI client (src/gui/MainWindow.cpp).

The embedding models:
* the message record handed back by the store (`Message`),
* the decrypt-authorization gate and status classifier used by
  `MainWindow::loadConversation`,
* the render-entry construction of `loadConversation` (direct) and
  `loadGroupConversation` (group), tracking whether the code path invokes
  `messenger_decrypt_message`,
* the poll tick `MainWindow::checkForNewMessages` (cursor update,
  mark-delivered calls, notifications, conditional re-render),
* the additional-recipient selection of `MainWindow::onAddRecipients`
  together with the recipient-list construction of `MainWindow::onSendMessage`,
* the send path `MainWindow::onSendMessage` as a state transformer.

External collaborators (the messenger core, the Postgres store, decryption)
are parameters: the store read is an `Option (List Message)`, decryption is
an oracle `Nat → Option String` keyed by message id.
-/

namespace DnaMessenger

/-- A message row as exposed by the store
(`message_info_t`: id, sender, recipient, timestamp, status).
`status` is `none` when the column is NULL. -/
structure Message where
  id : Nat
  sender : String
  recipient : String
  timestamp : String
  status : Option String
deriving Repr, DecidableEq

/-- Decrypt-authorization gate of `MainWindow::loadConversation`
(MainWindow.cpp line 736): decryption is attempted iff
`recipient == currentIdentity || sender == currentIdentity`. -/
def canAttemptDecrypt (m : Message) (localIdentity : String) : Bool :=
  m.recipient == localIdentity || m.sender == localIdentity

/-- Presentation status badge shown on self-sent bubbles. -/
inductive StatusBadge where
  | pending
  | delivered
  | read
deriving Repr, DecidableEq

/-- Status classifier of `MainWindow::loadConversation`
(MainWindow.cpp lines 751-766): a NULL status defaults to "sent";
"read" and "delivered" map to their badges, anything else to the single
gray checkmark (pending). -/
def classify (rawStatus : Option String) : StatusBadge :=
  let status := rawStatus.getD "sent"
  if status == "read" then StatusBadge.read
  else if status == "delivered" then StatusBadge.delivered
  else StatusBadge.pending

/-- Message attribution in a rendered conversation. -/
inductive Attribution where
  | self
  | other
deriving Repr, DecidableEq

/-- A render-ready conversation entry. `statusBadge` is `some` only for
self-sent entries (direct conversations derive it from the status column;
group conversations always show the fixed single checkmark). -/
structure RenderEntry where
  attribution : Attribution
  displayText : String
  timeLabel : String
  statusBadge : Option StatusBadge
deriving Repr, DecidableEq

/-- Time label extraction `timestamp.mid(11, 5)` of MainWindow.cpp lines
730 and 895: characters 11..15 of "YYYY-MM-DD HH:MM:SS". -/
def timeOnly (timestamp : String) : String :=
  String.mk ((timestamp.toList.drop 11).take 5)

/-- Placeholder used before/without decryption (MainWindow.cpp line 735). -/
def encryptedPlaceholder : String := "[encrypted]"

/-- Placeholder produced when `messenger_decrypt_message` fails
(MainWindow.cpp lines 744 and 906). -/
def decryptionFailedPlaceholder : String := "🔒 [decryption failed]"

/-- One message of a direct conversation, as rendered by
`MainWindow::loadConversation` (MainWindow.cpp lines 724-826).
Returns the render entry together with `true` iff the code path called
`messenger_decrypt_message` for this message. -/
def renderDirectMessage (decrypt : Nat → Option String) (localIdentity : String)
    (m : Message) : RenderEntry × Bool :=
  let attempted := canAttemptDecrypt m localIdentity
  let text :=
    if canAttemptDecrypt m localIdentity then
      match decrypt m.id with
      | some plaintext => plaintext
      | none => decryptionFailedPlaceholder
    else encryptedPlaceholder
  if m.sender == localIdentity then
    (⟨Attribution.self, text, timeOnly m.timestamp, some (classify m.status)⟩, attempted)
  else
    (⟨Attribution.other, text, timeOnly m.timestamp, none⟩, attempted)

/-- One message of a group conversation, as rendered by
`MainWindow::loadGroupConversation` (MainWindow.cpp lines 890-965).
Decryption is invoked unconditionally (lines 897-907); self entries carry
the fixed single-checkmark indicator (line 911). Returns the entry together
with `true` iff `messenger_decrypt_message` was called. -/
def renderGroupMessage (decrypt : Nat → Option String) (localIdentity : String)
    (m : Message) : RenderEntry × Bool :=
  let text :=
    match decrypt m.id with
    | some plaintext => plaintext
    | none => decryptionFailedPlaceholder
  if m.sender == localIdentity then
    (⟨Attribution.self, text, timeOnly m.timestamp, some StatusBadge.pending⟩, true)
  else
    (⟨Attribution.other, text, timeOnly m.timestamp, none⟩, true)

/-- Outcome of assembling a conversation for display. -/
inductive LoadResult where
  | failure
  | emptyState
  | entries (es : List RenderEntry)
deriving Repr, DecidableEq

/-- `MainWindow::loadConversation` (MainWindow.cpp lines 712-838):
`messenger_get_conversation` failure yields the visible error branch
(lines 831-838); success with zero rows yields the empty-state placeholder
(lines 717-722); otherwise each message is rendered in store order. -/
def loadConversation (store : Option (List Message)) (decrypt : Nat → Option String)
    (localIdentity : String) : LoadResult :=
  match store with
  | none => LoadResult.failure
  | some msgs =>
    if msgs.isEmpty then LoadResult.emptyState
    else LoadResult.entries (msgs.map (fun m => (renderDirectMessage decrypt localIdentity m).1))

/-- A row returned by the new-message poll query
(`SELECT id, sender, created_at FROM messages ...`). -/
structure NewMsgRow where
  id : Nat
  sender : String
  timestamp : String
deriving Repr, DecidableEq

/-- Observable effects of one `MainWindow::checkForNewMessages` tick. -/
structure TickEffects where
  cursor : Nat
  delivered : List Nat
  notifications : List (String × String)
  rerenders : List String
deriving Repr, DecidableEq

/-- Per-row step of the loop in `MainWindow::checkForNewMessages`
(MainWindow.cpp lines 1106-1134): max-guarded cursor advance (1111-1113),
unconditional mark-delivered (1116), notification with sender and timestamp
(1122-1128), re-render iff the open contact is the sender (1131-1133). -/
def tickStep (currentContact : String) (eff : TickEffects) (row : NewMsgRow) : TickEffects :=
  { cursor := if row.id > eff.cursor then row.id else eff.cursor
    delivered := eff.delivered ++ [row.id]
    notifications := eff.notifications ++ [(row.sender, row.timestamp)]
    rerenders :=
      if currentContact == row.sender then eff.rerenders ++ [row.sender]
      else eff.rerenders }

/-- `MainWindow::checkForNewMessages` (MainWindow.cpp lines 1077-1137):
a failed query (`PQresultStatus != PGRES_TUPLES_OK`, lines 1099-1102)
returns with no effect; otherwise every returned row is processed in
order. `queryResult` is `none` when the query cannot be completed. -/
def checkForNewMessages (currentContact : String) (cursor : Nat)
    (queryResult : Option (List NewMsgRow)) : TickEffects :=
  match queryResult with
  | none => ⟨cursor, [], [], []⟩
  | some rows => rows.foldl (tickStep currentContact) ⟨cursor, [], [], []⟩

/-- Insertion of a row into a list sorted ascending by id. -/
def insertByIdAsc (row : NewMsgRow) : List NewMsgRow → List NewMsgRow
  | [] => [row]
  | r :: rs => if row.id ≤ r.id then row :: r :: rs else r :: insertByIdAsc row rs

/-- Ascending-by-id sort, modelling the `ORDER BY id ASC` of the store. -/
def sortByIdAsc (rows : List NewMsgRow) : List NewMsgRow :=
  rows.foldr insertByIdAsc []

/-- The new-message query issued by `checkForNewMessages`
(MainWindow.cpp lines 1086-1090):
`SELECT id, sender, created_at FROM messages WHERE recipient = $1 AND
id > $2 ORDER BY id ASC`. -/
def newMessagesQuery (store : List Message) (localIdentity : String)
    (cursor : Nat) : List NewMsgRow :=
  sortByIdAsc
    ((store.filter (fun m => m.recipient == localIdentity && cursor < m.id)).map
      (fun m => ⟨m.id, m.sender, m.timestamp⟩))

/-- The cursor value after a whole tick, starting from `cursor`. -/
def tickCursor (cursor : Nat) (queryResult : Option (List NewMsgRow)) : Nat :=
  (checkForNewMessages "" cursor queryResult).cursor

/-- The cursor after a sequence of poll ticks starting from the initial
value 0 set in the `MainWindow` constructor (MainWindow.cpp line 82). -/
def runPolls (ticks : List (Option (List NewMsgRow))) : Nat :=
  ticks.foldl tickCursor 0

/-- All message ids returned across a sequence of poll ticks. -/
def observedIds (ticks : List (Option (List NewMsgRow))) : List Nat :=
  ticks.foldr
    (fun t acc =>
      match t with
      | none => acc
      | some rows => rows.map NewMsgRow.id ++ acc) []

/-- Candidate list of the add-recipients dialog
(`MainWindow::onAddRecipients`, MainWindow.cpp lines 1861-1875): every
contact except the current contact and the local identity. -/
def candidateContacts (contacts : List String) (currentContact localIdentity : String) :
    List String :=
  contacts.filter (fun c => c != currentContact && c != localIdentity)

/-- Additional recipients recorded when the dialog is accepted
(MainWindow.cpp lines 1893-1907): the selected items of the candidate
list, in list order. `selected` is the per-item selection state. -/
def additionalRecipientsAfterDialog (contacts : List String)
    (currentContact localIdentity : String) (selected : String → Bool) : List String :=
  (candidateContacts contacts currentContact localIdentity).filter selected

/-- Recipient list built by `MainWindow::onSendMessage` for a direct send
(MainWindow.cpp lines 996-1008): the primary recipient first, then the
additional recipients. -/
def buildRecipientList (currentContact : String) (additionalRecipients : List String) :
    List String :=
  currentContact :: additionalRecipients

/-- The full Recipient Set when the additional recipients come from the
add-recipients dialog. -/
def recipientSet (contacts : List String) (currentContact localIdentity : String)
    (selected : String → Bool) : List String :=
  buildRecipientList currentContact
    (additionalRecipientsAfterDialog contacts currentContact localIdentity selected)

/-- Whitespace as stripped by `QString::trimmed`. -/
def isSpaceChar (c : Char) : Bool :=
  c == ' ' || c == '\t' || c == '\n' || c == '\r' || c == '\x0b' || c == '\x0c'

/-- Model of `QString::trimmed` (MainWindow.cpp line 982): remove leading
and trailing whitespace. -/
def qtrimmed (s : String) : String :=
  String.mk (((s.data.dropWhile isSpaceChar).reverse.dropWhile isSpaceChar).reverse)

/-- The send call handed to the external messenger core. -/
inductive SendCall where
  | toGroup (groupId : Int) (text : String)
  | toContacts (recipients : List String) (text : String)
deriving Repr, DecidableEq

/-- Which kind of target is currently selected (`currentContactType`). -/
inductive ContactType where
  | contact
  | group
deriving Repr, DecidableEq

/-- The UI state `onSendMessage` can read and mutate. -/
structure SendUiState where
  messageInput : String
  display : List String
  statusText : String
deriving Repr, DecidableEq

/-- Result of one `onSendMessage` invocation: the new UI state, the send
calls issued to the messenger core, and the modal dialog shown (if any). -/
structure SendOutcome where
  state : SendUiState
  calls : List SendCall
  dialog : Option String
deriving Repr, DecidableEq

/-- `MainWindow::onSendMessage` (MainWindow.cpp lines 981-1066):
trimmed-empty input returns immediately (lines 982-985); a group target
sends to the group, a contact target sends to primary plus additional
recipients (lines 990-1014); on success the optimistic bubble is appended
and the input cleared (lines 1021-1060); on failure a critical dialog is
shown and nothing else changes (lines 1061-1065). `sendOk` is the
success/failure verdict of the external send call. -/
def onSendMessage (st : SendUiState) (contactType : ContactType)
    (currentContact : String) (currentGroupId : Int)
    (additionalRecipients : List String) (sendOk : SendCall → Bool) : SendOutcome :=
  let message := qtrimmed st.messageInput
  if message.data.isEmpty then
    ⟨st, [], none⟩
  else
    let attempt : Option SendCall :=
      if contactType == ContactType.group && currentGroupId ≥ 0 then
        some (SendCall.toGroup currentGroupId message)
      else if contactType == ContactType.contact && !(currentContact == "") then
        some (SendCall.toContacts (buildRecipientList currentContact additionalRecipients)
          message)
      else none
    match attempt with
    | none => ⟨st, [], some "No Selection"⟩
    | some call =>
      if sendOk call then
        ⟨⟨"", st.display ++ [message], "✨ Message sent"⟩, [call], none⟩
      else
        ⟨⟨st.messageInput, st.display, "❌ Message send failed"⟩, [call],
          some "❌ Send Failed"⟩

/-! ## Helper lemmas -/

/-- The max-guarded assignment of MainWindow.cpp lines 1111-1113 is `Nat.max`. -/
theorem cursorStep_eq_max (a b : Nat) : (if b > a then b else a) = Nat.max a b := by
  rcases Nat.lt_or_ge a b with h | h
  · rw [if_pos h]
    exact (Nat.max_eq_right (Nat.le_of_lt h)).symm
  · rw [if_neg (Nat.not_lt.mpr h)]
    exact (Nat.max_eq_left h).symm

/-- The cursor component of the per-tick fold is a fold of `Nat.max` over ids. -/
theorem foldl_tickStep_cursor (contact : String) (rows : List NewMsgRow)
    (eff : TickEffects) :
    (rows.foldl (tickStep contact) eff).cursor =
      rows.foldl (fun c r => Nat.max c r.id) eff.cursor := by
  induction rows generalizing eff with
  | nil => rfl
  | cons r rs ih =>
    simp only [List.foldl_cons, ih]
    congr 1
    simp [tickStep, cursorStep_eq_max]

/-- A `Nat.max` fold never goes below its starting value. -/
theorem le_foldl_max (ids : List Nat) (c : Nat) : c ≤ ids.foldl Nat.max c := by
  induction ids generalizing c with
  | nil => exact Nat.le_refl c
  | cons a as ih => exact Nat.le_trans (Nat.le_max_left c a) (ih (Nat.max c a))

/-- The ids a single tick observes. -/
def tickIds (queryResult : Option (List NewMsgRow)) : List Nat :=
  match queryResult with
  | none => []
  | some rows => rows.map NewMsgRow.id

/-- A tick's final cursor is the `Nat.max` fold of that tick's ids. -/
theorem tickCursor_eq_fold (c : Nat) (t : Option (List NewMsgRow)) :
    tickCursor c t = (tickIds t).foldl Nat.max c := by
  cases t with
  | none => rfl
  | some rows =>
    simp only [tickCursor, checkForNewMessages, tickIds]
    rw [foldl_tickStep_cursor, List.foldl_map]

/-- Folding whole ticks from any start equals folding `Nat.max` over all
observed ids from that start. -/
theorem foldl_tickCursor_eq (ticks : List (Option (List NewMsgRow))) (c : Nat) :
    ticks.foldl tickCursor c = (observedIds ticks).foldl Nat.max c := by
  induction ticks generalizing c with
  | nil => rfl
  | cons t ts ih =>
    simp only [List.foldl_cons, observedIds, List.foldr_cons]
    rw [ih, tickCursor_eq_fold]
    cases t with
    | none => rfl
    | some rows =>
      rw [List.foldl_append]
      rfl

/-! ## Claims -/

/-- C4: the status classifier used for self-sent entries in a direct
conversation maps an absent status or "sent" to pending, "delivered" to
delivered, "read" to read, and every other string to pending. -/
theorem classify_maps_status_correctly :
    classify none = StatusBadge.pending ∧
    classify (some "sent") = StatusBadge.pending ∧
    classify (some "delivered") = StatusBadge.delivered ∧
    classify (some "read") = StatusBadge.read ∧
    (∀ s : String, (s == "delivered") = false → (s == "read") = false →
      classify (some s) = StatusBadge.pending) := by
  refine ⟨rfl, rfl, rfl, rfl, ?_⟩
  intro s hd hr
  simp [classify, hd, hr]

/-- Witness for C4 at the unrecognized status string "archived". -/
theorem classify_maps_status_correctly_witness :
    classify (some "archived") = StatusBadge.pending :=
  classify_maps_status_correctly.2.2.2.2 "archived" rfl rfl

/-- C5: conversation assembly distinguishes a successful-but-empty store
read (empty-state placeholder) from a failed store read (visible Failure);
the two outcomes are distinct results. -/
theorem loadConversation_empty_vs_failure :
    (∀ decrypt localIdentity,
      loadConversation none decrypt localIdentity = LoadResult.failure) ∧
    (∀ decrypt localIdentity,
      loadConversation (some []) decrypt localIdentity = LoadResult.emptyState) ∧
    ((LoadResult.emptyState == LoadResult.failure) = false) := by
  exact ⟨fun _ _ => rfl, fun _ _ => rfl, rfl⟩

/-- C8: a poll tick whose new-message query cannot be completed terminates
with no state change: the cursor keeps its value, no mark-delivered call is
issued, no notification is emitted, and no re-render is triggered. -/
theorem checkForNewMessages_query_failure_no_effect :
    ∀ currentContact cursor,
      checkForNewMessages currentContact cursor none =
        ⟨cursor, [], [], []⟩ :=
  fun _ _ => rfl

/-- C2: across every sequence of poll ticks starting from the initial
cursor value 0 (MainWindow constructor, line 82), `lastCheckedMessageId`
is non-decreasing, and after each tick it equals the maximum message id
observed over all messages returned by all polls so far (0 when nothing
has been observed yet). -/
theorem pollCursor_monotone_and_max :
    (∀ ticks extra : List (Option (List NewMsgRow)),
      runPolls ticks ≤ runPolls (ticks ++ extra)) ∧
    (∀ ticks : List (Option (List NewMsgRow)),
      runPolls ticks = (observedIds ticks).foldl Nat.max 0) := by
  constructor
  · intro ticks extra
    unfold runPolls
    rw [List.foldl_append]
    generalize List.foldl tickCursor 0 ticks = c
    induction extra generalizing c with
    | nil => exact Nat.le_refl c
    | cons t ts ih =>
      rw [List.foldl_cons]
      refine Nat.le_trans ?_ (ih (tickCursor c t))
      rw [tickCursor_eq_fold]
      exact le_foldl_max _ _
  · intro ticks
    exact foldl_tickCursor_eq ticks 0

/-- C3 (Scenario A): with the store holding exactly one message
{id 1, sender "bob", recipient "alice", status "read"}, a poll tick as
"alice" with cursor 0 advances the cursor to 1, emits exactly one
notification carrying sender "bob" and the message's timestamp, and
issues a mark-delivered call for message id 1. -/
theorem scenarioA_poll_effects (ts contact : String) :
    (checkForNewMessages contact 0
      (some (newMessagesQuery [⟨1, "bob", "alice", ts, some "read"⟩] "alice" 0))).cursor
        = 1 ∧
    (checkForNewMessages contact 0
      (some (newMessagesQuery [⟨1, "bob", "alice", ts, some "read"⟩] "alice" 0))).notifications
        = [("bob", ts)] ∧
    (checkForNewMessages contact 0
      (some (newMessagesQuery [⟨1, "bob", "alice", ts, some "read"⟩] "alice" 0))).delivered
        = [1] := by
  refine ⟨rfl, rfl, rfl⟩

/-- C6: a direct-conversation message whose sender is the local identity
renders with attribution self and a status badge computed solely from its
status field; the badge is the same whether decryption succeeds or fails. -/
theorem renderDirectMessage_self_attribution_and_badge
    (decrypt decrypt2 : Nat → Option String) (localIdentity : String) (m : Message)
    (h : m.sender = localIdentity) :
    (renderDirectMessage decrypt localIdentity m).1.attribution = Attribution.self ∧
    (renderDirectMessage decrypt localIdentity m).1.statusBadge =
      some (classify m.status) ∧
    (renderDirectMessage decrypt localIdentity m).1.statusBadge =
      (renderDirectMessage decrypt2 localIdentity m).1.statusBadge := by
  subst h
  simp [renderDirectMessage]

/-- Witness for C6: a self-sent delivered message, one decrypt oracle
succeeding and one failing. -/
theorem renderDirectMessage_self_attribution_and_badge_witness :
    (renderDirectMessage (fun _ => some "hi") "alice"
      ⟨1, "alice", "bob", "2024-01-01 10:00:00", some "delivered"⟩).1.attribution
        = Attribution.self ∧
    (renderDirectMessage (fun _ => some "hi") "alice"
      ⟨1, "alice", "bob", "2024-01-01 10:00:00", some "delivered"⟩).1.statusBadge
        = some (classify (some "delivered")) ∧
    (renderDirectMessage (fun _ => some "hi") "alice"
      ⟨1, "alice", "bob", "2024-01-01 10:00:00", some "delivered"⟩).1.statusBadge =
    (renderDirectMessage (fun _ => none) "alice"
      ⟨1, "alice", "bob", "2024-01-01 10:00:00", some "delivered"⟩).1.statusBadge :=
  renderDirectMessage_self_attribution_and_badge (fun _ => some "hi") (fun _ => none)
    "alice" ⟨1, "alice", "bob", "2024-01-01 10:00:00", some "delivered"⟩ rfl

/-- `List.elem` is false when the probe differs from every element. -/
theorem elem_false_of_all_ne (a : String) :
    ∀ l : List String, (∀ x ∈ l, (a == x) = false) → l.elem a = false := by
  intro l
  induction l with
  | nil => intro _; rfl
  | cons x xs ih =>
    intro h
    have hx : (a == x) = false := h x (List.mem_cons_self x xs)
    simp only [List.elem, hx]
    exact ih (fun y hy => h y (List.mem_cons_of_mem x hy))

/-- Every recorded additional recipient differs from the primary recipient
and the local identity. -/
theorem mem_additional_ne (contacts : List String) (currentContact localIdentity : String)
    (selected : String → Bool) :
    ∀ x ∈ additionalRecipientsAfterDialog contacts currentContact localIdentity selected,
      x ≠ currentContact ∧ x ≠ localIdentity := by
  intro x hx
  have h1 := List.mem_filter.mp hx
  have h2 := List.mem_filter.mp h1.1
  have h3 := h2.2
  simp only [Bool.and_eq_true, bne_iff_ne, ne_eq] at h3
  exact h3

/-- C7: the additional recipients never include the primary recipient or
the local identity, even if either was selected; and Scenario D: primary
"bob", selections {"carol","alice"}, local identity "alice" yield the
Recipient Set ["bob","carol"]. -/
theorem recipientSet_excludes_primary_and_local :
    (∀ (contacts : List String) (currentContact localIdentity : String)
        (selected : String → Bool),
      ((additionalRecipientsAfterDialog contacts currentContact localIdentity
          selected).contains currentContact = false) ∧
      ((additionalRecipientsAfterDialog contacts currentContact localIdentity
          selected).contains localIdentity = false)) ∧
    recipientSet ["alice", "bob", "carol"] "bob" "alice"
      (fun c => c == "carol" || c == "alice") = ["bob", "carol"] := by
  constructor
  · intro contacts cc li sel
    constructor
    · apply elem_false_of_all_ne
      intro x hx
      exact beq_eq_false_iff_ne.mpr (Ne.symm (mem_additional_ne contacts cc li sel x hx).1)
    · apply elem_false_of_all_ne
      intro x hx
      exact beq_eq_false_iff_ne.mpr (Ne.symm (mem_additional_ne contacts cc li sel x hx).2)
  · rfl

/-- C10: if the input text is empty or only whitespace (its trimmed form is
empty), the send operation is a no-op: the UI state is unchanged, no send
call is made, and no dialog is raised. -/
theorem onSendMessage_empty_input_noop
    (st : SendUiState) (contactType : ContactType) (currentContact : String)
    (currentGroupId : Int) (additionalRecipients : List String)
    (sendOk : SendCall → Bool)
    (h : (qtrimmed st.messageInput).data.isEmpty = true) :
    onSendMessage st contactType currentContact currentGroupId
      additionalRecipients sendOk = ⟨st, [], none⟩ := by
  simp [onSendMessage, h]

/-- Witness for C10: whitespace-only input "  " with a contact selected. -/
theorem onSendMessage_empty_input_noop_witness :
    onSendMessage ⟨"  ", ["old"], "s"⟩ ContactType.contact "bob" (-1) []
      (fun _ => true) = ⟨⟨"  ", ["old"], "s"⟩, [], none⟩ :=
  onSendMessage_empty_input_noop ⟨"  ", ["old"], "s"⟩ ContactType.contact "bob" (-1)
    [] (fun _ => true) (by decide)

/-- C9: when a send fails, no partial state change occurs — the input text
is kept, no optimistic entry joins the display — and an explicit failure
dialog is surfaced. Both the contact branch and the group branch of
`onSendMessage` behave this way. -/
theorem onSendMessage_failure_keeps_state
    (st : SendUiState) (currentContact : String) (currentGroupId : Int)
    (additionalRecipients : List String) (sendOk : SendCall → Bool)
    (hne : (qtrimmed st.messageInput).data.isEmpty = false)
    (hfail : ∀ c, sendOk c = false) :
    ((currentContact == "") = false →
      onSendMessage st ContactType.contact currentContact currentGroupId
        additionalRecipients sendOk =
      ⟨⟨st.messageInput, st.display, "❌ Message send failed"⟩,
       [SendCall.toContacts (buildRecipientList currentContact additionalRecipients)
          (qtrimmed st.messageInput)],
       some "❌ Send Failed"⟩) ∧
    (0 ≤ currentGroupId →
      onSendMessage st ContactType.group currentContact currentGroupId
        additionalRecipients sendOk =
      ⟨⟨st.messageInput, st.display, "❌ Message send failed"⟩,
       [SendCall.toGroup currentGroupId (qtrimmed st.messageInput)],
       some "❌ Send Failed"⟩) := by
  constructor
  · intro hcc
    simp [onSendMessage, hne, hcc, hfail]
  · intro hg
    simp [onSendMessage, hne, hg, hfail]

/-- Witness for C9: input "hi", contact "bob", group id 3, all sends fail. -/
theorem onSendMessage_failure_keeps_state_witness :
    (onSendMessage ⟨"hi", ["old"], "s"⟩ ContactType.contact "bob" 3 ["carol"]
        (fun _ => false) =
      ⟨⟨"hi", ["old"], "❌ Message send failed"⟩,
       [SendCall.toContacts (buildRecipientList "bob" ["carol"]) (qtrimmed "hi")],
       some "❌ Send Failed"⟩) ∧
    (onSendMessage ⟨"hi", ["old"], "s"⟩ ContactType.group "bob" 3 ["carol"]
        (fun _ => false) =
      ⟨⟨"hi", ["old"], "❌ Message send failed"⟩,
       [SendCall.toGroup 3 (qtrimmed "hi")],
       some "❌ Send Failed"⟩) :=
  ⟨(onSendMessage_failure_keeps_state ⟨"hi", ["old"], "s"⟩ "bob" 3 ["carol"]
      (fun _ => false) (by decide) (fun _ => rfl)).1 rfl,
   (onSendMessage_failure_keeps_state ⟨"hi", ["old"], "s"⟩ "bob" 3 ["carol"]
      (fun _ => false) (by decide) (fun _ => rfl)).2 (by decide)⟩

/-- C1, counterexample: in a group conversation, a message whose sender
"bob" and recipient "carol" both differ from the local identity "alice"
still has decryption attempted, and its rendered text is the
decryption-failed placeholder, not the generic "[encrypted]" one. -/
theorem groupRender_attempts_decrypt_counterexample :
    (renderGroupMessage (fun _ => none) "alice"
      ⟨7, "bob", "carol", "2024-01-01 12:00:00", some "read"⟩).2 = true ∧
    (renderGroupMessage (fun _ => none) "alice"
      ⟨7, "bob", "carol", "2024-01-01 12:00:00", some "read"⟩).1.displayText =
        decryptionFailedPlaceholder ∧
    ((decryptionFailedPlaceholder == encryptedPlaceholder) = false) :=
  ⟨rfl, rfl, rfl⟩

/-- C1, amended: in a *direct* conversation, a message whose recipient and
sender both differ from the local identity renders as the generic
"[encrypted]" placeholder and decryption is never attempted; in a *group*
conversation decryption is attempted for every message. -/
theorem decryptGate_direct_only
    (decrypt : Nat → Option String) (localIdentity : String) (m : Message)
    (hr : (m.recipient == localIdentity) = false)
    (hs : (m.sender == localIdentity) = false) :
    (renderDirectMessage decrypt localIdentity m).1.displayText =
      encryptedPlaceholder ∧
    (renderDirectMessage decrypt localIdentity m).2 = false ∧
    (renderGroupMessage decrypt localIdentity m).2 = true := by
  refine ⟨?_, ?_, ?_⟩
  · simp [renderDirectMessage, canAttemptDecrypt, hr, hs]
  · simp [renderDirectMessage, canAttemptDecrypt, hr, hs]
  · cases hd : decrypt m.id <;> simp [renderGroupMessage, hd, hs]

/-- Witness for the amended C1: local identity "alice", message from "bob"
to "carol". -/
theorem decryptGate_direct_only_witness :
    (renderDirectMessage (fun _ => some "leak") "alice"
      ⟨7, "bob", "carol", "2024-01-01 12:00:00", none⟩).1.displayText =
        encryptedPlaceholder ∧
    (renderDirectMessage (fun _ => some "leak") "alice"
      ⟨7, "bob", "carol", "2024-01-01 12:00:00", none⟩).2 = false ∧
    (renderGroupMessage (fun _ => some "leak") "alice"
      ⟨7, "bob", "carol", "2024-01-01 12:00:00", none⟩).2 = true :=
  decryptGate_direct_only (fun _ => some "leak") "alice"
    ⟨7, "bob", "carol", "2024-01-01 12:00:00", none⟩ rfl rfl

end DnaMessenger
